import Mathlib

/-!
# Verification of the Coder analytics pipeline

Shallow embedding of the analytics core of the repository:

* `coder/analytics/collect.py` — the usage-delta accumulator
  (`calculate_accumulated_usage` with its helpers `_build_user_active_hours`,
  `_get_team_name`, `_update_existing_accumulated_record`);
* `coder/analytics/aggregate.py` — the workspace-registry builder
  (`build_workspace_registry`, `enrich_registry_from_accumulated`), the
  activity classifier (`days_since`, `activity_status`) and the metric
  calculators (`compute_team_metrics`, `compute_platform_metrics`,
  `compute_template_metrics`, `compute_workspace_metrics`).

Modelling conventions:

* Python dicts (which preserve insertion order and update keys in place) are
  embedded as association lists `List (String × α)` with an in-place `upsert`.
* ISO-8601 UTC timestamp strings compare lexicographically exactly when they
  compare chronologically, so timestamps are embedded as `Int` epoch seconds;
  an optional string field that may be missing, `None`, empty, or unparsable
  becomes `Option Int` with `none` for all falsy/unparsable cases.
* Python floats on the values exercised here (half-unit fractions, small sums)
  behave exactly like rationals, so hours are embedded as `ℚ`; Python's
  `round` (banker's rounding, ties to even) is embedded as `pyRound`.
* Python set values (`list(set(...))`, set unions) have unspecified order;
  they are embedded as `List.dedup` of a concatenation, a deterministic
  representative with the same membership semantics.
-/

namespace Analytics

/-! ## Association-list primitives (Python `dict` semantics) -/

/-- First-match lookup in an insertion-ordered association list. -/
def alookup {α : Type} : List (String × α) → String → Option α
  | [], _ => none
  | (k, v) :: rest, key => if k = key then some v else alookup rest key

/-- `d[key] = v`: replace in place if the key exists, else append
(the position of an existing key is preserved, as for a Python dict). -/
def upsert {α : Type} (key : String) (v : α) : List (String × α) → List (String × α)
  | [] => [(key, v)]
  | (k, w) :: rest => if k = key then (key, v) :: rest else (k, w) :: upsert key v rest

/-- Python `list(set(a) | set(b))`, as a deterministic duplicate-free list. -/
def pyUnion (a b : List String) : List String := (a ++ b).dedup

/-- Truthiness of an optional string: `None` and `""` are falsy. -/
def pyTruthy (o : Option String) : Bool := o.getD "" ≠ ""

/-- Python `str.lower()` on the ASCII handles used here (kernel-reducible
character-by-character lowering). -/
def strLower (s : String) : String := ⟨s.data.map Char.toLower⟩

/-! ## Python numeric conventions -/

/-- Exact floor of a rational. -/
def ratFloor (q : ℚ) : Int := q.num.fdiv q.den

/-- Python `round(x)`: round half to even (banker's rounding). -/
def pyRound (q : ℚ) : Int :=
  let f := ratFloor q
  let r := q - (f : ℚ)
  if r < 1/2 then f
  else if 1/2 < r then f + 1
  else if f % 2 = 0 then f else f + 1

/-- Python `round(x * 10) / 10` and `round(x, 1)`: one decimal place. -/
def pyRound1 (q : ℚ) : ℚ := (pyRound (q * 10) : ℚ) / 10

/-! ## collect.py — data model -/

/-- A current workspace observation fed to the accumulator (fields read via
`.get(..., default)` are embedded with the default already applied). -/
structure CWorkspace where
  id : String
  owner_name : String
  template_name : String
  active_hours : ℚ
  total_usage_hours : ℚ
  deriving Repr, DecidableEq

/-- A value of `accumulated_usage`: one record per `(owner, template)` key. -/
structure UsageRecord where
  owner_name : String
  template_name : String
  team_name : String
  total_active_hours : ℚ
  total_workspace_hours : ℚ
  workspace_ids : List String
  last_updated : Int
  first_seen : Int
  deriving Repr, DecidableEq

/-- A value of `workspace_usage_snapshot`: last observed raw counters. -/
structure WsSnapRec where
  active_hours : ℚ
  workspace_hours : ℚ
  owner_name : String
  template_name : String
  deriving Repr, DecidableEq

/-- Per-`(owner, template)` grouping data built from the current run. -/
structure GroupData where
  owner_name : String
  template_name : String
  current_active : ℚ
  workspace_ids : List String
  workspace_hours_map : List (String × ℚ)
  deriving Repr, DecidableEq

/-- `_build_user_active_hours`: user → max active hours over all workspaces. -/
def buildUserActiveHours (workspaces : List CWorkspace) : List (String × ℚ) :=
  workspaces.foldl
    (fun m w =>
      let owner := strLower w.owner_name
      upsert owner (max ((alookup m owner).getD 0) w.active_hours) m)
    []

/-- `_get_team_name`: current participant mapping, then the historical record
under the same key, then the literal `"Unassigned"`. -/
def getTeamName (owner : String) (key : String)
    (participantMappings : List (String × Option String))
    (accumulatedUsage : List (String × UsageRecord)) : String :=
  let teamName : Option String := (alookup participantMappings owner).getD none
  let teamName :=
    if pyTruthy teamName then teamName
    else
      match alookup accumulatedUsage key with
      | some r => some r.team_name
      | none => teamName
  match teamName with
  | some t => if t ≠ "" then t else "Unassigned"
  | none => "Unassigned"

/-- `_update_existing_accumulated_record`. -/
def updateExistingAccumulatedRecord (record : UsageRecord)
    (activeDelta workspaceHoursDelta : ℚ) (teamName : String)
    (workspaceIds : List String) (now : Int) : UsageRecord :=
  { record with
    total_active_hours := record.total_active_hours + activeDelta
    total_workspace_hours := record.total_workspace_hours + workspaceHoursDelta
    last_updated := now
    team_name := teamName
    workspace_ids := pyUnion record.workspace_ids workspaceIds }

/-- The workspace-snapshot/grouping pass of `calculate_accumulated_usage`
(the first loop over `current_workspaces`). -/
def buildSnapshotAndGroups (current : List CWorkspace)
    (userActiveHours : List (String × ℚ)) :
    List (String × WsSnapRec) × List (String × GroupData) :=
  current.foldl
    (fun (st : List (String × WsSnapRec) × List (String × GroupData)) w =>
      let workspaceId := w.id
      let owner := strLower w.owner_name
      let templateName := w.template_name
      if workspaceId = "" ∨ owner = "" ∨ templateName = "" then st
      else
        let currentActive := (alookup userActiveHours owner).getD 0
        let currentWorkspaceHours := w.total_usage_hours
        let snap := upsert workspaceId
          ⟨currentActive, currentWorkspaceHours, owner, templateName⟩ st.1
        let key := owner ++ "_" ++ templateName
        let g : GroupData :=
          match alookup st.2 key with
          | some g0 => g0
          | none => ⟨owner, templateName, currentActive, [], []⟩
        let g := { g with
          workspace_ids := g.workspace_ids ++ [workspaceId]
          workspace_hours_map :=
            upsert workspaceId currentWorkspaceHours g.workspace_hours_map }
        (snap, upsert key g st.2))
    ([], [])

/-- `previous_active` for one group: the first member workspace id present in
the historical snapshot supplies the owner's previous active hours. -/
def groupPreviousActive (histSnaps : List (String × WsSnapRec))
    (g : GroupData) : ℚ :=
  (g.workspace_ids.findSome? fun wsId =>
    (alookup histSnaps wsId).map (·.active_hours)).getD 0

/-- `active_delta = max(0.0, current_active - previous_active)`. -/
def groupActiveDelta (histSnaps : List (String × WsSnapRec))
    (g : GroupData) : ℚ :=
  max 0 (g.current_active - groupPreviousActive histSnaps g)

/-- `workspace_hours_delta`: per-workspace clamped increments, summed. -/
def groupWorkspaceHoursDelta (histSnaps : List (String × WsSnapRec))
    (g : GroupData) : ℚ :=
  (g.workspace_ids.map fun wsId =>
    max 0 ((alookup g.workspace_hours_map wsId).getD 0 -
      ((alookup histSnaps wsId).map (·.workspace_hours)).getD 0)).sum

/-- The record seeded for a brand-new `(owner, template)` key (note: its
`total_active_hours` is the raw per-owner `current_active`). -/
def newAccumulatedRecord (g : GroupData) (teamName : String) (now : Int) :
    UsageRecord :=
  { owner_name := g.owner_name
    template_name := g.template_name
    team_name := teamName
    total_active_hours := g.current_active
    total_workspace_hours := (g.workspace_hours_map.map (·.2)).sum
    workspace_ids := g.workspace_ids
    last_updated := now
    first_seen := now }

/-- The per-group delta/merge step of `calculate_accumulated_usage`
(the second loop, one `(owner, template)` key at a time). -/
def applyGroup (histSnaps : List (String × WsSnapRec))
    (participantMappings : List (String × Option String)) (now : Int)
    (acc : List (String × UsageRecord)) (kg : String × GroupData) :
    List (String × UsageRecord) :=
  let key := kg.1
  let data := kg.2
  let activeDelta := groupActiveDelta histSnaps data
  let workspaceHoursDelta := groupWorkspaceHoursDelta histSnaps data
  let teamName := getTeamName data.owner_name key participantMappings acc
  match alookup acc key with
  | some record =>
      upsert key
        (updateExistingAccumulatedRecord record activeDelta workspaceHoursDelta
          teamName data.workspace_ids now) acc
  | none => upsert key (newAccumulatedRecord data teamName now) acc

/-- `calculate_accumulated_usage` (the external `now` clock is a parameter;
the function is otherwise pure). Returns
`(accumulated_usage, workspace_usage_snapshot)`. -/
def calculateAccumulatedUsage (currentWorkspaces : List CWorkspace)
    (historicalAccumulated : List (String × UsageRecord))
    (historicalWorkspaceSnapshots : List (String × WsSnapRec))
    (participantMappings : List (String × Option String)) (now : Int) :
    List (String × UsageRecord) × List (String × WsSnapRec) :=
  let userActiveHours := buildUserActiveHours currentWorkspaces
  let st := buildSnapshotAndGroups currentWorkspaces userActiveHours
  let accumulatedUsage :=
    st.2.foldl
      (applyGroup historicalWorkspaceSnapshots participantMappings now)
      historicalAccumulated
  (accumulatedUsage, st.1)

/-- One collection run's inputs, for iterating the accumulator. -/
structure RunInput where
  workspaces : List CWorkspace
  mappings : List (String × Option String)
  now : Int

/-- Thread `(accumulated_usage, workspace_usage_snapshot)` through a sequence
of accumulator calls, as successive collector runs do. -/
def runAccumulatorSequence (runs : List RunInput)
    (st : List (String × UsageRecord) × List (String × WsSnapRec)) :
    List (String × UsageRecord) × List (String × WsSnapRec) :=
  runs.foldl
    (fun st r => calculateAccumulatedUsage r.workspaces st.1 st.2 r.mappings r.now)
    st

/-! ## aggregate.py — workspace registry -/

/-- A workspace observation inside a snapshot. `Option` fields model JSON
keys that may be missing, `None`, empty, or (for timestamps) unparsable. -/
structure WsObs where
  id : String
  owner_name : String
  team_name : Option String
  template_name : String
  template_display_name : String
  template_id : String
  created_at : Option Int
  last_used_at : Option Int
  total_usage_hours : Option ℚ
  active_hours : Option ℚ
  owner_first_name : Option String
  owner_last_name : Option String
  deriving Repr, DecidableEq

/-- One snapshot: an ISO timestamp (embedded as epoch seconds) plus the
workspace observations. -/
structure Snapshot where
  timestamp : Int
  workspaces : List WsObs
  deriving Repr, DecidableEq

/-- A registry entry (`snapshot_timestamp` is `none` for the `""` carried by
synthetic stub entries). -/
structure Entry where
  id : String
  owner_name : String
  team_name : String
  template_name : String
  template_display_name : String
  template_id : String
  created_at : Option Int
  last_used_at : Option Int
  total_usage_hours : ℚ
  active_hours : ℚ
  owner_first_name : Option String
  owner_last_name : Option String
  snapshot_timestamp : Option Int
  deriving Repr, DecidableEq

/-- `existing["snapshot_timestamp"] >= ts` (a stub's `""` compares below any
real timestamp). -/
def tsGe (existing : Option Int) (ts : Int) : Bool :=
  match existing with
  | some t => ts ≤ t
  | none => false

/-- The registry entry written for observation `o` of a snapshot at `ts`,
with the team-name fallback to the existing entry. -/
def mkEntry (ts : Int) (o : WsObs) (existing : Option Entry) : Entry :=
  { id := o.id
    owner_name := o.owner_name
    team_name :=
      match o.team_name with
      | some t =>
          if t ≠ "" then t
          else match existing with
            | some e => e.team_name
            | none => "Unassigned"
      | none =>
          match existing with
          | some e => e.team_name
          | none => "Unassigned"
    template_name := o.template_name
    template_display_name := o.template_display_name
    template_id := o.template_id
    created_at := o.created_at
    last_used_at :=
      match o.last_used_at with
      | some t => some t
      | none => o.created_at
    total_usage_hours := o.total_usage_hours.getD 0
    active_hours := o.active_hours.getD 0
    owner_first_name := o.owner_first_name
    owner_last_name := o.owner_last_name
    snapshot_timestamp := some ts }

/-- The body of `build_workspace_registry`'s inner loop: fold one workspace
observation into the registry. -/
def applyObs (ts : Int) (registry : List (String × Entry)) (o : WsObs) :
    List (String × Entry) :=
  if o.id = "" then registry
  else
    match alookup registry o.id with
    | some existing =>
        if tsGe existing.snapshot_timestamp ts then registry
        else upsert o.id (mkEntry ts o (some existing)) registry
    | none => upsert o.id (mkEntry ts o none) registry

/-- Fold one snapshot into the registry. -/
def applySnapshot (registry : List (String × Entry)) (s : Snapshot) :
    List (String × Entry) :=
  s.workspaces.foldl (applyObs s.timestamp) registry

/-- `build_workspace_registry`: replay snapshots in list order. -/
def buildWorkspaceRegistry (snapshots : List Snapshot) : List (String × Entry) :=
  snapshots.foldl applySnapshot []

/-- The stub entry `enrich_registry_from_accumulated` inserts for a workspace
known only from `accumulated_usage`. -/
def stubEntry (wsId : String) (record : UsageRecord) : Entry :=
  { id := wsId
    owner_name := record.owner_name
    team_name := record.team_name
    template_name := record.template_name
    template_display_name := record.template_name
    template_id := ""
    created_at := some record.first_seen
    last_used_at := some record.last_updated
    total_usage_hours := 0
    active_hours := 0
    owner_first_name := none
    owner_last_name := none
    snapshot_timestamp := none }

/-- `enrich_registry_from_accumulated`: insert stubs for workspace ids
absent from the registry (embedded as returning the updated registry). -/
def enrichRegistryFromAccumulated (registry : List (String × Entry))
    (accumulatedUsage : List (String × UsageRecord)) : List (String × Entry) :=
  accumulatedUsage.foldl
    (fun reg kv =>
      kv.2.workspace_ids.foldl
        (fun reg wsId =>
          if (alookup reg wsId).isSome then reg
          else reg ++ [(wsId, stubEntry wsId kv.2)])
        reg)
    registry

/-! ## aggregate.py — activity helpers -/

/-- `ACTIVE_DAYS`. -/
def ACTIVE_DAYS : Int := 7

/-- `INACTIVE_DAYS`. -/
def INACTIVE_DAYS : Int := 30

/-- `days_since`: whole days (timedelta `.days`, i.e. floor) between a
timestamp and `now`, clamped at 0; unparsable (`none`) gives 9999. -/
def daysSince (timestamp : Option Int) (now : Int) : Int :=
  match timestamp with
  | some t => max 0 ((now - t).fdiv 86400)
  | none => 9999

/-- `activity_status`. -/
def activityStatus (lastUsedAt : Option Int) (now : Int) : String :=
  let d := daysSince lastUsedAt now
  if d ≤ ACTIVE_DAYS then "active"
  else if d ≤ INACTIVE_DAYS then "inactive"
  else "stale"

/-- `EXCLUDED_TEAMS` membership. -/
def exclTeam (t : String) : Bool := t == "facilitators" || t == "Unassigned"

/-! ## aggregate.py — metric calculators -/

/-- Lexicographic order of optional-timestamp strings: `""`/`None` sorts
below every real timestamp. -/
def optLe (a b : Option Int) : Bool :=
  match a, b with
  | none, _ => true
  | some _, none => false
  | some x, some y => x ≤ y

/-- `ws["last_used_at"] > existing["last_used_at"]` on timestamp strings. -/
def optGtTime (a b : Option Int) : Bool :=
  match a, b with
  | some x, some y => y < x
  | some _, none => true
  | none, _ => false

/-- Stable insertion into a sorted list: `x` goes before the first `y`
with `le x y`. -/
def insertSorted {α : Type} (le : α → α → Bool) (x : α) : List α → List α
  | [] => [x]
  | y :: ys => if le x y then x :: y :: ys else y :: insertSorted le x ys

/-- Stable sort (mirrors Python's stable `list.sort`): with
`le x y = (key x ≥ key y)` this is a stable descending sort, with
`le x y = (key x ≤ key y)` a stable ascending sort. -/
def insSort {α : Type} (le : α → α → Bool) (l : List α) : List α :=
  l.foldr (insertSorted le) []

/-- `defaultdict(int)` counting bump. -/
def bumpCount (m : List (String × Nat)) (k : String) : List (String × Nat) :=
  upsert k ((alookup m k).getD 0 + 1) m

/-- One daily-engagement bucket (dates embedded as epoch days, since
`YYYY-MM-DD` strings compare lexicographically iff chronologically). -/
structure EngagementDay where
  unique_users : List String
  active_workspaces : List String
  deriving Repr, DecidableEq

/-- One member row of a team metric. -/
structure Member where
  github_handle : String
  name : String
  workspace_count : Nat
  last_active : Option Int
  activity_status : String
  deriving Repr, DecidableEq

/-- `_build_members`. -/
def buildMembers (workspaces : List Entry) (now : Int) : List Member :=
  let memberMap :=
    workspaces.foldl
      (fun m ws =>
        match alookup m ws.owner_name with
        | none => upsert ws.owner_name ws m
        | some existing =>
            if optGtTime ws.last_used_at existing.last_used_at then
              upsert ws.owner_name ws m
            else m)
      []
  let members :=
    memberMap.map fun kv =>
      let owner := kv.1
      let ws := kv.2
      { github_handle := owner
        name :=
          if pyTruthy ws.owner_first_name && pyTruthy ws.owner_last_name then
            ws.owner_first_name.getD "" ++ " " ++ ws.owner_last_name.getD ""
          else owner
        workspace_count := (workspaces.filter (fun w => w.owner_name == owner)).length
        last_active := ws.last_used_at
        activity_status := activityStatus ws.last_used_at now }
  insSort (fun a b => optLe b.last_active a.last_active) members

/-- One team metric row. -/
structure TeamMetric where
  team_name : String
  total_workspaces : Nat
  unique_active_users : Nat
  total_workspace_hours : Int
  total_active_hours : Int
  avg_workspace_hours : ℚ
  active_days : Nat
  template_distribution : List (String × Nat)
  members : List Member
  deriving Repr, DecidableEq

/-- Per-team rollup of `accumulated_usage` (`acc_by_team`). -/
structure AccTeam where
  total_active_hours : ℚ
  total_workspace_hours : ℚ
  workspace_ids : List String
  deriving Repr, DecidableEq

/-- The registry entries that survive the `EXCLUDED_TEAMS` guard. -/
def nonExcludedWs (registry : List (String × Entry)) : List Entry :=
  (registry.map Prod.snd).filter (fun ws => !exclTeam ws.team_name)

/-- `team_ws` grouping of registry entries by team (the loop skips excluded
teams; the skip is embedded as a filter over the iterated values). -/
def teamGroups (registry : List (String × Entry)) : List (String × List Entry) :=
  (nonExcludedWs registry).foldl
    (fun m ws => upsert ws.team_name ((alookup m ws.team_name).getD [] ++ [ws]) m)
    []

/-- Completion pass: a team only visible in `accumulated_usage` gets an
empty workspace list. -/
def teamGroupsFull (registry : List (String × Entry))
    (acc : List (String × UsageRecord)) : List (String × List Entry) :=
  (acc.map Prod.snd).foldl
    (fun m r =>
      if exclTeam r.team_name then m
      else if (alookup m r.team_name).isSome then m
      else m ++ [(r.team_name, [])])
    (teamGroups registry)

/-- `acc_by_team`. -/
def accByTeam (acc : List (String × UsageRecord)) : List (String × AccTeam) :=
  (acc.map Prod.snd).foldl
    (fun m r =>
      if exclTeam r.team_name then m
      else
        let cur := (alookup m r.team_name).getD ⟨0, 0, []⟩
        upsert r.team_name
          ⟨cur.total_active_hours + r.total_active_hours,
           cur.total_workspace_hours + r.total_workspace_hours,
           pyUnion cur.workspace_ids r.workspace_ids⟩ m)
    []

/-- `(now - timedelta(days=ACTIVE_DAYS)).strftime("%Y-%m-%d")` as an epoch
day number. -/
def cutoffDay (now : Int) : Int := (now - ACTIVE_DAYS * 86400).fdiv 86400

/-- One team's metric row of `compute_team_metrics`. -/
def mkTeamMetric (accTeams : List (String × AccTeam))
    (eng : List (Int × EngagementDay)) (now : Int)
    (kv : String × List Entry) : TeamMetric :=
  let teamName := kv.1
  let workspaces := kv.2
  let accTeam := (alookup accTeams teamName).getD ⟨0, 0, []⟩
  let allWsIds := pyUnion (workspaces.map (·.id)) accTeam.workspace_ids
  let members := buildMembers workspaces now
  let activeUsers :=
    ((members.filter (fun m => m.activity_status == "active")).map
      (·.github_handle)).dedup
  let teamOwnersLower := workspaces.map (fun ws => strLower ws.owner_name)
  let activeDates :=
    ((eng.filter fun dd =>
      cutoffDay now ≤ dd.1 &&
        teamOwnersLower.any (fun o => dd.2.unique_users.contains o)).map
      Prod.fst).dedup
  let totalActiveHours := accTeam.total_active_hours
  let twh0 := accTeam.total_workspace_hours
  let totalWorkspaceHours :=
    if twh0 == 0 then (workspaces.map (·.total_usage_hours)).sum else twh0
  let avgWsHours :=
    if allWsIds.length ≠ 0 then totalWorkspaceHours / (allWsIds.length : ℚ) else 0
  let templateDist :=
    workspaces.foldl (fun m ws => bumpCount m ws.template_display_name) []
  { team_name := teamName
    total_workspaces := allWsIds.length
    unique_active_users := activeUsers.length
    total_workspace_hours := pyRound totalWorkspaceHours
    total_active_hours := pyRound totalActiveHours
    avg_workspace_hours := pyRound1 avgWsHours
    active_days := activeDates.length
    template_distribution := templateDist
    members := members }

/-- `compute_team_metrics`. -/
def computeTeamMetrics (registry : List (String × Entry))
    (acc : List (String × UsageRecord)) (eng : List (Int × EngagementDay))
    (now : Int) : List TeamMetric :=
  insSort (fun a b => !decide (b.team_name < a.team_name))
    ((teamGroupsFull registry acc).map (mkTeamMetric (accByTeam acc) eng now))

/-- The `most_popular_template` summary. -/
structure MostPop where
  name : String
  display_name : String
  count : Nat
  deriving Repr, DecidableEq

/-- `template_counts` cell. -/
structure TCount where
  count : Nat
  display_name : String
  deriving Repr, DecidableEq

/-- Python `max(items, key=count)`: the first item with maximal count. -/
def maxByCount (l : List (String × TCount)) : Option (String × TCount) :=
  l.foldl
    (fun best x =>
      match best with
      | none => some x
      | some b => if x.2.count > b.2.count then some x else some b)
    none

/-- Platform-wide metrics record. -/
structure PlatformMetric where
  total_workspaces : Nat
  total_users : Nat
  total_teams : Nat
  active_workspaces : Nat
  inactive_workspaces : Nat
  stale_workspaces : Nat
  total_templates : Nat
  most_popular_template : Option MostPop
  healthy_rate : ℚ
  avg_days_since_active : ℚ
  deriving Repr, DecidableEq

/-- `all_ws_ids` of `compute_platform_metrics`: every registry key plus every
accumulated workspace id — note: no team exclusion here. -/
def allWorkspaceIds (registry : List (String × Entry))
    (acc : List (String × UsageRecord)) : List String :=
  ((registry.map Prod.fst) ++
    acc.foldl (fun (l : List String) kv => l ++ kv.2.workspace_ids) []).dedup

/-- `compute_platform_metrics`. -/
def computePlatformMetrics (registry : List (String × Entry))
    (acc : List (String × UsageRecord)) (teamMetrics : List TeamMetric)
    (now : Int) : PlatformMetric :=
  let allWsIds := allWorkspaceIds registry acc
  let nonExcluded := nonExcludedWs registry
  let activeWs :=
    (nonExcluded.filter (fun ws => activityStatus ws.last_used_at now == "active")).length
  let inactiveWs :=
    (nonExcluded.filter (fun ws => activityStatus ws.last_used_at now == "inactive")).length
  let staleWs :=
    (nonExcluded.filter (fun ws => activityStatus ws.last_used_at now == "stale")).length
  let allUsers := (nonExcluded.map (·.owner_name)).dedup
  let templatesSeen :=
    ((nonExcluded.filter (fun ws => ws.template_name ≠ "")).map (·.template_name)).dedup
  let templateCounts :=
    nonExcluded.foldl
      (fun m ws =>
        if ws.template_name ≠ "" then
          upsert ws.template_name
            ⟨((alookup m ws.template_name).getD ⟨0, ""⟩).count + 1,
              ws.template_display_name⟩ m
        else m)
      []
  let mostPopular := maxByCount templateCounts
  let daysVals := nonExcluded.map (fun ws => daysSince ws.last_used_at now)
  let avgDays :=
    if daysVals.length ≠ 0 then
      pyRound1 ((daysVals.map (fun d => (d : ℚ))).sum / (daysVals.length : ℚ))
    else 0
  { total_workspaces := allWsIds.length
    total_users := allUsers.length
    total_teams := teamMetrics.length
    active_workspaces := activeWs
    inactive_workspaces := inactiveWs
    stale_workspaces := staleWs
    total_templates := templatesSeen.length
    most_popular_template :=
      mostPopular.map (fun x => ⟨x.1, x.2.display_name, x.2.count⟩)
    healthy_rate := 0
    avg_days_since_active := avgDays }

/-- A template definition from the latest snapshot. -/
structure TemplateDef where
  id : String
  name : String
  display_name : Option String
  deriving Repr, DecidableEq

/-- One template metric row. -/
structure TemplateMetric where
  template_id : String
  template_name : String
  template_display_name : String
  total_workspaces : Nat
  active_workspaces : Nat
  unique_active_users : Nat
  total_workspace_hours : Int
  total_active_hours : Int
  avg_workspace_hours : ℚ
  team_distribution : List (String × Nat)
  deriving Repr, DecidableEq

/-- `by_template_id`: registry entries with a template id, excluded teams
skipped (the loop's skip embedded as a filter). -/
def templateGroups (registry : List (String × Entry)) :
    List (String × List Entry) :=
  ((registry.map Prod.snd).filter
    (fun ws => ws.template_id ≠ "" && !exclTeam ws.team_name)).foldl
    (fun m ws => upsert ws.template_id ((alookup m ws.template_id).getD [] ++ [ws]) m)
    []

/-- The accumulated records matching one template name (excluded teams
skipped, as in each of the three comprehensions). -/
def accTemplateRecords (acc : List (String × UsageRecord)) (tName : String) :
    List UsageRecord :=
  (acc.map Prod.snd).filter
    (fun r => r.template_name == tName && !exclTeam r.team_name)

/-- One row of `compute_template_metrics`. -/
def mkTemplateMetric (registryGroups : List (String × List Entry))
    (acc : List (String × UsageRecord)) (now : Int) (t : TemplateDef) :
    TemplateMetric :=
  let workspaces := (alookup registryGroups t.id).getD []
  let activeWs :=
    workspaces.filter (fun ws => activityStatus ws.last_used_at now == "active")
  let activeUsers := (activeWs.map (·.owner_name)).dedup
  let recs := accTemplateRecords acc t.name
  let allWsIds :=
    ((workspaces.map (·.id)) ++
      recs.foldl (fun (l : List String) r => l ++ r.workspace_ids) []).dedup
  let totalActiveHours := (recs.map (·.total_active_hours)).sum
  let twh0 := (recs.map (·.total_workspace_hours)).sum
  let totalWorkspaceHours :=
    if twh0 == 0 then (workspaces.map (·.total_usage_hours)).sum else twh0
  let avgWsHours :=
    if allWsIds.length ≠ 0 then totalWorkspaceHours / (allWsIds.length : ℚ) else 0
  let teamDist := workspaces.foldl (fun m ws => bumpCount m ws.team_name) []
  { template_id := t.id
    template_name := t.name
    template_display_name := t.display_name.getD t.name
    total_workspaces := allWsIds.length
    active_workspaces := activeWs.length
    unique_active_users := activeUsers.length
    total_workspace_hours := pyRound totalWorkspaceHours
    total_active_hours := pyRound totalActiveHours
    avg_workspace_hours := pyRound1 avgWsHours
    team_distribution := teamDist }

/-- `compute_template_metrics`. -/
def computeTemplateMetrics (registry : List (String × Entry))
    (templates : List TemplateDef) (acc : List (String × UsageRecord))
    (now : Int) : List TemplateMetric :=
  templates.map (mkTemplateMetric (templateGroups registry) acc now)

/-- One workspace-detail row. -/
structure WorkspaceMetric where
  workspace_id : String
  workspace_name : String
  owner_github_handle : String
  owner_name : String
  team_name : String
  template_id : String
  template_name : String
  template_display_name : String
  current_status : String
  health_status : String
  created_at : Option Int
  last_active : Option Int
  last_build_at : Option Int
  days_since_created : Int
  days_since_active : Int
  workspace_hours : ℚ
  active_hours : ℚ
  total_builds : Nat
  last_build_status : String
  activity_status : String
  recent_active_dates : List Int
  deriving Repr, DecidableEq

/-- One row of `compute_workspace_metrics` (registry entries never carry a
`name` key, so `ws.get("name") or f"{owner}/workspace"` always falls back). -/
def mkWorkspaceRow (now : Int) (ws : Entry) : WorkspaceMetric :=
  let lastUsed := ws.last_used_at
  let created := ws.created_at
  let dsa := daysSince lastUsed now
  let dsc := daysSince created now
  let name :=
    if pyTruthy ws.owner_first_name && pyTruthy ws.owner_last_name then
      ws.owner_first_name.getD "" ++ " " ++ ws.owner_last_name.getD ""
    else ws.owner_name
  { workspace_id := ws.id
    workspace_name := ws.owner_name ++ "/workspace"
    owner_github_handle := ws.owner_name
    owner_name := name
    team_name := ws.team_name
    template_id := ws.template_id
    template_name := ws.template_name
    template_display_name := ws.template_display_name
    current_status := "unknown"
    health_status := "unknown"
    created_at := created
    last_active := lastUsed
    last_build_at := created
    days_since_created := dsc
    days_since_active := dsa
    workspace_hours := ws.total_usage_hours
    active_hours := ws.active_hours
    total_builds := 0
    last_build_status := "unknown"
    activity_status := activityStatus lastUsed now
    recent_active_dates := [] }

/-- `compute_workspace_metrics`. -/
def computeWorkspaceMetrics (registry : List (String × Entry)) (now : Int) :
    List WorkspaceMetric :=
  insSort (fun a b => optLe b.last_active a.last_active)
    ((nonExcludedWs registry).map (mkWorkspaceRow now))

/-! ## Concrete inputs used by the claim theorems -/

/-- C1 failing input: one owner, two templates, empty history, per-owner
`active_hours` V = 10 on both workspaces (the repository's own regression
tests expect both new records to start at 0). -/
def doubleTemplateWorkspaces : List CWorkspace :=
  [⟨"ws-1", "user1", "python-dev", 10, 0⟩,
   ⟨"ws-2", "user1", "nodejs-dev", 10, 0⟩]

/-- Participant mapping for the C1 failing input. -/
def doubleTemplateMappings : List (String × Option String) :=
  [("user1", some "team-a")]

/-- A fixed `now` for the single-workspace scenario (2025-01-01T00:00:00Z). -/
def scenarioNow : Int := 1735689600

/-- The single workspace observation of the C4 scenario
(`id=w1, owner=alice, team=team-a, last_used_at=now-3days,
total_usage_hours=2.5`). -/
def scenarioObs : WsObs :=
  { id := "w1"
    owner_name := "alice"
    team_name := some "team-a"
    template_name := ""
    template_display_name := ""
    template_id := ""
    created_at := none
    last_used_at := some (scenarioNow - 3 * 86400)
    total_usage_hours := some (5/2)
    active_hours := none
    owner_first_name := none
    owner_last_name := none }

/-- Registry built from the single-snapshot, single-workspace scenario. -/
def scenarioRegistry : List (String × Entry) :=
  buildWorkspaceRegistry [⟨scenarioNow, [scenarioObs]⟩]

/-- A registry holding exactly one workspace owned by the excluded
`facilitators` team. -/
def facilitatorsRegistry : List (String × Entry) :=
  buildWorkspaceRegistry
    [⟨0, [{ id := "w1"
            owner_name := "bob"
            team_name := some "facilitators"
            template_name := "t"
            template_display_name := "T"
            template_id := "tid"
            created_at := none
            last_used_at := none
            total_usage_hours := none
            active_hours := none
            owner_first_name := none
            owner_last_name := none }]⟩]

end Analytics

namespace Analytics

/-! ## C1 — new-key seeding in `calculate_accumulated_usage` -/

/-- C1 (code evaluated at the failing input): starting from empty historical
accumulated usage and empty historical workspace snapshots, one owner with
workspaces on two templates and per-owner `active_hours` V = 10 gets
`total_active_hours` = 10 written to **both** new `(owner, template)` keys:
the code seeds a brand-new key with the raw per-owner value, so V is
duplicated across templates, contradicting the claim and the repository's
own regression tests (which require both records to start at 0). -/
theorem c1_new_keys_seeded_with_raw_value :
    ((calculateAccumulatedUsage doubleTemplateWorkspaces [] []
        doubleTemplateMappings 0).1.map
      (fun kv => (kv.1, kv.2.total_active_hours))) =
    [("user1_python-dev", 10), ("user1_nodejs-dev", 10)] := by
  decide

/-! ## C2 — activity-classification boundaries -/

/-- C2 counterexample: `last_used_at` exactly 7 days + 1 second before `now`
classifies `active` (not `inactive` as claimed), because `timedelta.days`
floors to whole days; likewise 30 days + 1 second classifies `inactive`
(not `stale`). -/
theorem c2_boundary_counterexample :
    activityStatus (some (1000000000 - (7 * 86400 + 1))) 1000000000 = "active" ∧
    activityStatus (some (1000000000 - (7 * 86400 + 1))) 1000000000 ≠ "inactive" ∧
    activityStatus (some (1000000000 - (30 * 86400 + 1))) 1000000000 = "inactive" ∧
    activityStatus (some (1000000000 - (30 * 86400 + 1))) 1000000000 ≠ "stale" := by
  decide

/-- C2 amended: for every `now`, `activity_status` returns `active` at exactly
7 days and still `active` at 7 days + 1 second (it first returns `inactive`
at exactly 8 whole days); it returns `inactive` at exactly 30 days and still
`inactive` at 30 days + 1 second (it first returns `stale` at exactly
31 whole days). -/
theorem c2_activity_boundaries_amended (now : Int) :
    activityStatus (some (now - 7 * 86400)) now = "active" ∧
    activityStatus (some (now - (7 * 86400 + 1))) now = "active" ∧
    activityStatus (some (now - 8 * 86400)) now = "inactive" ∧
    activityStatus (some (now - 30 * 86400)) now = "inactive" ∧
    activityStatus (some (now - (30 * 86400 + 1))) now = "inactive" ∧
    activityStatus (some (now - 31 * 86400)) now = "stale" := by
  simp only [activityStatus, daysSince, sub_sub_cancel]
  decide

/-! ## C4 — single-workspace scenario numbers -/

unseal Rat.add Rat.sub Rat.mul Rat.inv in
/-- C4 counterexample: in the stated scenario the team's
`total_workspace_hours` is 2, not 3 — Python's `round` uses banker's
rounding, so `round(2.5) = 2`. -/
theorem c4_rounding_counterexample :
    (computeTeamMetrics scenarioRegistry [] [] scenarioNow).map
      (fun t => t.total_workspace_hours) = [2] ∧ (2 : Int) ≠ 3 := by
  decide

unseal Rat.add Rat.sub Rat.mul Rat.inv in
/-- C4 amended: the scenario's team metrics for `team-a` report
`total_workspaces = 1`, `unique_active_users = 1` and
`total_workspace_hours = 2` (2.5 rounded half-to-even by Python's `round`),
and `compute_workspace_metrics` returns exactly one row, whose
`activity_status` is `"active"`. -/
theorem c4_single_workspace_scenario :
    (computeTeamMetrics scenarioRegistry [] [] scenarioNow).map
      (fun t => (t.team_name, t.total_workspaces, t.unique_active_users,
        t.total_workspace_hours)) = [("team-a", 1, 1, 2)] ∧
    (computeWorkspaceMetrics scenarioRegistry scenarioNow).map
      (fun w => w.activity_status) = ["active"] := by
  decide

/-! ## C3 — the `EXCLUDED_TEAMS` filter -/

/-- Generic: filtering on the value component commutes with projecting
`dict.values()`. -/
theorem filter_map_snd {α β : Type} (p : β → Bool) (l : List (α × β)) :
    (l.filter (fun kv => p kv.2)).map Prod.snd = (l.map Prod.snd).filter p := by
  induction l with
  | nil => rfl
  | cons a t ih => by_cases h : p a.2 <;> simp [h, ih]

/-- Generic: a second pass of a filter implied by the first is a no-op. -/
theorem filter_filter_of_imp {α : Type} (p q : α → Bool)
    (h : ∀ a, q a = true → p a = true) (l : List α) :
    (l.filter p).filter q = l.filter q := by
  induction l with
  | nil => rfl
  | cons a t ih =>
      by_cases hp : p a
      · by_cases hq : q a <;> simp [hp, hq, ih]
      · have hq : q a = false := by
          cases hqa : q a
          · rfl
          · exact absurd (h a hqa) (by simp [hp])
        simp [hp, hq, ih]

/-- Generic: elements on which the fold step is the identity can be
filtered out first. -/
theorem foldl_filter_skip {α β : Type} (f : β → α → β) (p : α → Bool)
    (h : ∀ b a, p a = false → f b a = b) (l : List α) (b : β) :
    (l.filter p).foldl f b = l.foldl f b := by
  induction l generalizing b with
  | nil => rfl
  | cons a t ih =>
      by_cases hp : p a
      · simp [hp, ih]
      · simp [hp, ih, h b a (by simp [hp])]

/-- Deleting the registry entries of excluded teams. -/
def filterRegistryExcluded (reg : List (String × Entry)) : List (String × Entry) :=
  reg.filter (fun kv => !exclTeam kv.2.team_name)

/-- Deleting the accumulated-usage records of excluded teams. -/
def filterAccExcluded (acc : List (String × UsageRecord)) :
    List (String × UsageRecord) :=
  acc.filter (fun kv => !exclTeam kv.2.team_name)

/-- `non_excluded` ignores registry entries of excluded teams. -/
theorem nonExcludedWs_filter (reg : List (String × Entry)) :
    nonExcludedWs (filterRegistryExcluded reg) = nonExcludedWs reg := by
  unfold nonExcludedWs filterRegistryExcluded
  rw [filter_map_snd (fun ws : Entry => !exclTeam ws.team_name)]
  exact filter_filter_of_imp _ _ (fun a ha => ha) _

/-- `team_ws` grouping ignores registry entries of excluded teams. -/
theorem teamGroups_filter (reg : List (String × Entry)) :
    teamGroups (filterRegistryExcluded reg) = teamGroups reg := by
  unfold teamGroups
  rw [nonExcludedWs_filter]

/-- The `team_ws` completion pass ignores excluded accumulated records. -/
theorem teamGroupsFull_filter (reg : List (String × Entry))
    (acc : List (String × UsageRecord)) :
    teamGroupsFull (filterRegistryExcluded reg) (filterAccExcluded acc) =
      teamGroupsFull reg acc := by
  unfold teamGroupsFull filterAccExcluded
  rw [teamGroups_filter,
    filter_map_snd (fun r : UsageRecord => !exclTeam r.team_name),
    foldl_filter_skip]
  intro b a ha
  simp only [Bool.not_eq_false'] at ha
  simp [ha]

/-- `acc_by_team` ignores excluded accumulated records. -/
theorem accByTeam_filter (acc : List (String × UsageRecord)) :
    accByTeam (filterAccExcluded acc) = accByTeam acc := by
  unfold accByTeam filterAccExcluded
  rw [filter_map_snd (fun r : UsageRecord => !exclTeam r.team_name),
    foldl_filter_skip]
  intro b a ha
  simp only [Bool.not_eq_false'] at ha
  simp [ha]

/-- `by_template_id` ignores registry entries of excluded teams. -/
theorem templateGroups_filter (reg : List (String × Entry)) :
    templateGroups (filterRegistryExcluded reg) = templateGroups reg := by
  unfold templateGroups filterRegistryExcluded
  rw [filter_map_snd (fun ws : Entry => !exclTeam ws.team_name),
    filter_filter_of_imp]
  intro a ha
  simp only [Bool.and_eq_true] at ha
  exact ha.2

/-- The per-template accumulated-record selection ignores excluded records. -/
theorem accTemplateRecords_filter (acc : List (String × UsageRecord))
    (tName : String) :
    accTemplateRecords (filterAccExcluded acc) tName =
      accTemplateRecords acc tName := by
  unfold accTemplateRecords filterAccExcluded
  rw [filter_map_snd (fun r : UsageRecord => !exclTeam r.team_name),
    filter_filter_of_imp]
  intro a ha
  simp only [Bool.and_eq_true] at ha
  exact ha.2

/-- C3 counterexample: a registry holding exactly one workspace, owned by the
excluded `facilitators` team, still yields `total_workspaces = 1` from
`compute_platform_metrics` (its `all_ws_ids` is built from all registry keys
with no team exclusion), even though team metrics are empty. -/
theorem c3_platform_total_counterexample :
    (computePlatformMetrics facilitatorsRegistry []
        (computeTeamMetrics facilitatorsRegistry [] [] 0) 0).total_workspaces = 1 ∧
    computeTeamMetrics facilitatorsRegistry [] [] 0 = [] := by
  decide

/-- C3 amended: team metrics, template metrics, and every
`compute_platform_metrics` field except `total_workspaces` are unchanged when
all workspaces and accumulated records of the teams `"facilitators"` and
`"Unassigned"` are deleted from the inputs (so none of them ever counts such
a workspace); `total_workspaces`, by contrast, is computed from all registry
keys and all accumulated workspace ids without the exclusion filter. -/
theorem c3_exclusion_filter_amended (reg : List (String × Entry))
    (acc : List (String × UsageRecord)) (eng : List (Int × EngagementDay))
    (templates : List TemplateDef) (tm : List TeamMetric) (now : Int) :
    computeTeamMetrics (filterRegistryExcluded reg) (filterAccExcluded acc)
        eng now = computeTeamMetrics reg acc eng now ∧
    computeTemplateMetrics (filterRegistryExcluded reg) templates
        (filterAccExcluded acc) now = computeTemplateMetrics reg templates acc now ∧
    (computePlatformMetrics (filterRegistryExcluded reg) (filterAccExcluded acc)
        tm now).total_users = (computePlatformMetrics reg acc tm now).total_users ∧
    (computePlatformMetrics (filterRegistryExcluded reg) (filterAccExcluded acc)
        tm now).total_teams = (computePlatformMetrics reg acc tm now).total_teams ∧
    (computePlatformMetrics (filterRegistryExcluded reg) (filterAccExcluded acc)
        tm now).active_workspaces =
      (computePlatformMetrics reg acc tm now).active_workspaces ∧
    (computePlatformMetrics (filterRegistryExcluded reg) (filterAccExcluded acc)
        tm now).inactive_workspaces =
      (computePlatformMetrics reg acc tm now).inactive_workspaces ∧
    (computePlatformMetrics (filterRegistryExcluded reg) (filterAccExcluded acc)
        tm now).stale_workspaces =
      (computePlatformMetrics reg acc tm now).stale_workspaces ∧
    (computePlatformMetrics (filterRegistryExcluded reg) (filterAccExcluded acc)
        tm now).total_templates =
      (computePlatformMetrics reg acc tm now).total_templates ∧
    (computePlatformMetrics (filterRegistryExcluded reg) (filterAccExcluded acc)
        tm now).most_popular_template =
      (computePlatformMetrics reg acc tm now).most_popular_template ∧
    (computePlatformMetrics (filterRegistryExcluded reg) (filterAccExcluded acc)
        tm now).healthy_rate = (computePlatformMetrics reg acc tm now).healthy_rate ∧
    (computePlatformMetrics (filterRegistryExcluded reg) (filterAccExcluded acc)
        tm now).avg_days_since_active =
      (computePlatformMetrics reg acc tm now).avg_days_since_active := by
  have hteam :
      computeTeamMetrics (filterRegistryExcluded reg) (filterAccExcluded acc)
        eng now = computeTeamMetrics reg acc eng now := by
    unfold computeTeamMetrics
    rw [teamGroupsFull_filter, accByTeam_filter]
  have htemplate :
      computeTemplateMetrics (filterRegistryExcluded reg) templates
        (filterAccExcluded acc) now = computeTemplateMetrics reg templates acc now := by
    unfold computeTemplateMetrics
    rw [templateGroups_filter]
    have hf : mkTemplateMetric (templateGroups reg) (filterAccExcluded acc) now =
        mkTemplateMetric (templateGroups reg) acc now := by
      funext t
      unfold mkTemplateMetric
      rw [accTemplateRecords_filter]
    rw [hf]
  refine ⟨hteam, htemplate, ?_, ?_, ?_, ?_, ?_, ?_, ?_, ?_, ?_⟩ <;>
    simp only [computePlatformMetrics, nonExcludedWs_filter]

/-! ## C10 — `enrich_registry_from_accumulated` only inserts stubs -/

/-- Lookups that already succeed are unaffected by appended entries. -/
theorem alookup_append_of_some {α : Type} (l l' : List (String × α))
    (w : String) (e : α) (h : alookup l w = some e) :
    alookup (l ++ l') w = some e := by
  induction l with
  | nil => simp [alookup] at h
  | cons a t ih =>
      obtain ⟨k, v⟩ := a
      by_cases hk : k = w <;> simp_all [alookup]

/-- The inner per-workspace-id step of the enrichment preserves every
existing binding. -/
theorem enrich_inner_preserves (rec : UsageRecord) (ids : List String)
    (reg : List (String × Entry)) (w : String) (e : Entry)
    (h : alookup reg w = some e) :
    alookup
      (ids.foldl
        (fun reg wsId =>
          if (alookup reg wsId).isSome then reg
          else reg ++ [(wsId, stubEntry wsId rec)])
        reg) w = some e := by
  induction ids generalizing reg with
  | nil => exact h
  | cons i it ih =>
      simp only [List.foldl_cons]
      apply ih
      by_cases hp : (alookup reg i).isSome
      · simpa [hp] using h
      · simp only [hp, if_false]
        exact alookup_append_of_some _ _ _ _ h

/-- C10: `enrich_registry_from_accumulated` never touches a workspace id that
is already present — for every id bound in the registry before the call, the
entry after the call is the same (every field unchanged), whatever the
accumulated usage records contain. -/
theorem c10_enrich_preserves_existing_entries
    (registry : List (String × Entry)) (acc : List (String × UsageRecord))
    (w : String) (e : Entry) (h : alookup registry w = some e) :
    alookup (enrichRegistryFromAccumulated registry acc) w = some e := by
  unfold enrichRegistryFromAccumulated
  induction acc generalizing registry with
  | nil => exact h
  | cons r t ih =>
      simp only [List.foldl_cons]
      exact ih _ (enrich_inner_preserves r.2 r.2.workspace_ids registry w e h)

/-! ## Registry-replay lemmas (C6, C7, C9) -/

/-- Lookup after `upsert` at the same key. -/
theorem alookup_upsert_self {α : Type} (k : String) (v : α)
    (l : List (String × α)) : alookup (upsert k v l) k = some v := by
  induction l with
  | nil => simp [upsert, alookup]
  | cons a t ih =>
      obtain ⟨k', v'⟩ := a
      by_cases h : k' = k <;> simp [upsert, alookup, h, ih]

/-- Lookup after `upsert` at a different key. -/
theorem alookup_upsert_ne {α : Type} (k w : String) (hne : k ≠ w) (v : α)
    (l : List (String × α)) : alookup (upsert k v l) w = alookup l w := by
  induction l with
  | nil => simp [upsert, alookup, hne]
  | cons a t ih =>
      obtain ⟨k', v'⟩ := a
      by_cases h : k' = k
      · subst h
        simp [upsert, alookup, hne]
      · by_cases h2 : k' = w <;> simp [upsert, alookup, h, h2, ih, Ne.symm hne]

/-- Processing an observation for a different workspace id leaves a lookup
unchanged. -/
theorem applyObs_lookup_ne (ts : Int) (reg : List (String × Entry)) (o : WsObs)
    (w : String) (h : o.id ≠ w) :
    alookup (applyObs ts reg o) w = alookup reg w := by
  unfold applyObs
  by_cases h1 : o.id = ""
  · simp [h1]
  · cases hl : alookup reg o.id with
    | none => simp [h1, hl, alookup_upsert_ne o.id w h]
    | some ex =>
        by_cases hge : tsGe ex.snapshot_timestamp ts <;>
          simp [h1, hl, hge, alookup_upsert_ne o.id w h]

/-- `applyObs` on an id that is absent: fresh insertion. -/
theorem applyObs_insert_of_none (ts : Int) (reg : List (String × Entry))
    (o : WsObs) (hid : o.id ≠ "") (h : alookup reg o.id = none) :
    applyObs ts reg o = upsert o.id (mkEntry ts o none) reg := by
  unfold applyObs
  simp [hid, h]

/-- `applyObs` on an id bound to a strictly older entry: overwrite, with the
old entry as fallback. -/
theorem applyObs_overwrite_of_older (ts : Int) (reg : List (String × Entry))
    (o : WsObs) (e : Entry) (hid : o.id ≠ "") (h : alookup reg o.id = some e)
    (hlt : tsGe e.snapshot_timestamp ts = false) :
    applyObs ts reg o = upsert o.id (mkEntry ts o (some e)) reg := by
  unfold applyObs
  simp [hid, h, hlt]

/-- `applyObs` on an id bound at least as recently: skipped. -/
theorem applyObs_skip_of_ge (ts : Int) (reg : List (String × Entry))
    (o : WsObs) (e : Entry) (h : alookup reg o.id = some e)
    (hge : tsGe e.snapshot_timestamp ts = true) :
    applyObs ts reg o = reg := by
  unfold applyObs
  by_cases hid : o.id = "" <;> simp [hid, h, hge]

/-- Folding observations none of which carry id `w` leaves `w`'s lookup
unchanged. -/
theorem foldl_obs_lookup_ne (ts : Int) (l : List WsObs)
    (reg : List (String × Entry)) (w : String) (h : ∀ o ∈ l, o.id ≠ w) :
    alookup (l.foldl (applyObs ts) reg) w = alookup reg w := by
  induction l generalizing reg with
  | nil => rfl
  | cons a t ih =>
      rw [List.foldl_cons, ih _ (fun o ho => h o (List.mem_cons_of_mem a ho)),
        applyObs_lookup_ne ts reg a w (h a (List.mem_cons_self a t))]

/-- An entry whose snapshot timestamp is at least the incoming snapshot's
survives one observation unchanged. -/
theorem applyObs_preserve_of_ge (ts : Int) (reg : List (String × Entry))
    (o : WsObs) (w : String) (e : Entry) (h : alookup reg w = some e)
    (hge : tsGe e.snapshot_timestamp ts = true) :
    alookup (applyObs ts reg o) w = some e := by
  by_cases hid : o.id = w
  · subst hid
    rw [applyObs_skip_of_ge ts reg o e h hge]
    exact h
  · rw [applyObs_lookup_ne ts reg o w hid]
    exact h

/-- An entry whose snapshot timestamp is at least the incoming snapshot's
survives the whole snapshot unchanged. -/
theorem foldl_obs_preserve_of_ge (ts : Int) (l : List WsObs)
    (reg : List (String × Entry)) (w : String) (e : Entry)
    (h : alookup reg w = some e)
    (hge : tsGe e.snapshot_timestamp ts = true) :
    alookup (l.foldl (applyObs ts) reg) w = some e := by
  induction l generalizing reg with
  | nil => exact h
  | cons a t ih =>
      rw [List.foldl_cons]
      exact ih _ (applyObs_preserve_of_ge ts reg a w e h hge)

/-- Lookup after a snapshot fold whose first observation of `w` is `o`, when
`w` was absent: the entry is freshly created from `o`. -/
theorem foldl_obs_first_of_none (ts : Int) (l1 : List WsObs) (o : WsObs)
    (l2 : List WsObs) (reg : List (String × Entry)) (w : String)
    (hw : w ≠ "") (h1 : ∀ x ∈ l1, x.id ≠ w) (ho : o.id = w)
    (hnone : alookup reg w = none) :
    alookup ((l1 ++ o :: l2).foldl (applyObs ts) reg) w =
      some (mkEntry ts o none) := by
  rw [List.foldl_append]
  have hnone1 : alookup (l1.foldl (applyObs ts) reg) w = none := by
    rw [foldl_obs_lookup_ne ts l1 reg w h1]
    exact hnone
  rw [List.foldl_cons]
  have hstep : applyObs ts (l1.foldl (applyObs ts) reg) o =
      upsert o.id (mkEntry ts o none) (l1.foldl (applyObs ts) reg) :=
    applyObs_insert_of_none ts _ o (ho ▸ hw) (ho ▸ hnone1)
  rw [hstep]
  refine foldl_obs_preserve_of_ge ts l2 _ w _ ?_ ?_
  · rw [← ho, alookup_upsert_self]
  · simp [mkEntry, tsGe]

/-- Lookup after a snapshot fold whose first observation of `w` is `o`, when
`w` was bound to a strictly older entry: the entry is overwritten from `o`
with the old entry as team fallback. -/
theorem foldl_obs_first_of_older (ts : Int) (l1 : List WsObs) (o : WsObs)
    (l2 : List WsObs) (reg : List (String × Entry)) (w : String) (e : Entry)
    (hw : w ≠ "") (h1 : ∀ x ∈ l1, x.id ≠ w) (ho : o.id = w)
    (hsome : alookup reg w = some e)
    (hlt : tsGe e.snapshot_timestamp ts = false) :
    alookup ((l1 ++ o :: l2).foldl (applyObs ts) reg) w =
      some (mkEntry ts o (some e)) := by
  rw [List.foldl_append]
  have hsome1 : alookup (l1.foldl (applyObs ts) reg) w = some e := by
    rw [foldl_obs_lookup_ne ts l1 reg w h1]
    exact hsome
  rw [List.foldl_cons]
  have hstep : applyObs ts (l1.foldl (applyObs ts) reg) o =
      upsert o.id (mkEntry ts o (some e)) (l1.foldl (applyObs ts) reg) :=
    applyObs_overwrite_of_older ts _ o e (ho ▸ hw) (ho ▸ hsome1) hlt
  rw [hstep]
  refine foldl_obs_preserve_of_ge ts l2 _ w _ ?_ ?_
  · rw [← ho, alookup_upsert_self]
  · simp [mkEntry, tsGe]

/-- Any binding present after one observation either predates it or carries
the snapshot's timestamp. -/
theorem applyObs_ts_bound (ts : Int) (reg : List (String × Entry)) (o : WsObs)
    (w : String) (e : Entry) (h : alookup (applyObs ts reg o) w = some e) :
    alookup reg w = some e ∨ e.snapshot_timestamp = some ts := by
  by_cases h1 : o.id = ""
  · unfold applyObs at h
    rw [if_pos h1] at h
    exact Or.inl h
  · cases hl : alookup reg o.id with
    | none =>
        rw [applyObs_insert_of_none ts reg o h1 hl] at h
        by_cases hid : o.id = w
        · subst hid
          rw [alookup_upsert_self] at h
          right
          have he := Option.some.inj h
          simp [← he, mkEntry]
        · rw [alookup_upsert_ne o.id w hid] at h
          exact Or.inl h
    | some ex =>
        by_cases hge : tsGe ex.snapshot_timestamp ts
        · rw [applyObs_skip_of_ge ts reg o ex hl hge] at h
          exact Or.inl h
        · rw [applyObs_overwrite_of_older ts reg o ex h1 hl
            (by simpa using hge)] at h
          by_cases hid : o.id = w
          · subst hid
            rw [alookup_upsert_self] at h
            right
            have he := Option.some.inj h
            simp [← he, mkEntry]
          · rw [alookup_upsert_ne o.id w hid] at h
            exact Or.inl h

/-- Any binding present after a snapshot fold either predates it or carries
the snapshot's timestamp. -/
theorem foldl_obs_ts_bound (ts : Int) (l : List WsObs)
    (reg : List (String × Entry)) (w : String) (e : Entry)
    (h : alookup (l.foldl (applyObs ts) reg) w = some e) :
    alookup reg w = some e ∨ e.snapshot_timestamp = some ts := by
  induction l generalizing reg with
  | nil => exact Or.inl h
  | cons a t ih =>
      rw [List.foldl_cons] at h
      rcases ih _ h with h' | h'
      · exact applyObs_ts_bound ts reg a w e h'
      · exact Or.inr h'

/-- Present bindings stay present across one observation. -/
theorem applyObs_isSome_preserve (ts : Int) (reg : List (String × Entry))
    (o : WsObs) (w : String) (h : (alookup reg w).isSome) :
    (alookup (applyObs ts reg o) w).isSome := by
  by_cases hid : o.id = w
  · subst hid
    by_cases h1 : o.id = ""
    · unfold applyObs
      simpa [h1] using h
    · cases hl : alookup reg o.id with
      | none =>
          rw [applyObs_insert_of_none ts reg o h1 hl, alookup_upsert_self]
          rfl
      | some ex =>
          by_cases hge : tsGe ex.snapshot_timestamp ts
          · rw [applyObs_skip_of_ge ts reg o ex hl hge]
            exact h
          · rw [applyObs_overwrite_of_older ts reg o ex h1 hl
              (by simpa using hge), alookup_upsert_self]
            rfl
  · rw [applyObs_lookup_ne ts reg o w hid]
    exact h

/-- Present bindings stay present across a snapshot fold. -/
theorem foldl_obs_isSome_preserve (ts : Int) (l : List WsObs)
    (reg : List (String × Entry)) (w : String) (h : (alookup reg w).isSome) :
    (alookup (l.foldl (applyObs ts) reg) w).isSome := by
  induction l generalizing reg with
  | nil => exact h
  | cons a t ih =>
      rw [List.foldl_cons]
      exact ih _ (applyObs_isSome_preserve ts reg a w h)

/-- Every workspace observation with a non-empty id ends up bound after its
snapshot is folded. -/
theorem foldl_obs_mem_isSome (ts : Int) (l : List WsObs)
    (reg : List (String × Entry)) (o : WsObs) (ho : o ∈ l) (hid : o.id ≠ "") :
    (alookup (l.foldl (applyObs ts) reg) o.id).isSome := by
  induction l generalizing reg with
  | nil => cases ho
  | cons a t ih =>
      rw [List.foldl_cons]
      rcases List.mem_cons.mp ho with h | h
      · subst h
        refine foldl_obs_isSome_preserve ts t _ o.id ?_
        cases hl : alookup reg o.id with
        | none =>
            rw [applyObs_insert_of_none ts reg o hid hl, alookup_upsert_self]
            rfl
        | some ex =>
            by_cases hge : tsGe ex.snapshot_timestamp ts
            · rw [applyObs_skip_of_ge ts reg o ex hl hge, hl]
              rfl
            · rw [applyObs_overwrite_of_older ts reg o ex hid hl
                (by simpa using hge), alookup_upsert_self]
              rfl
      · exact ih _ h

/-- A snapshot all of whose non-empty ids are already bound with at least its
timestamp is a no-op. -/
theorem foldl_obs_skip_of_ge (ts : Int) (l : List WsObs)
    (reg : List (String × Entry))
    (h : ∀ o ∈ l, o.id ≠ "" →
      ∃ e, alookup reg o.id = some e ∧ tsGe e.snapshot_timestamp ts = true) :
    l.foldl (applyObs ts) reg = reg := by
  induction l with
  | nil => rfl
  | cons a t ih =>
      have hstep : applyObs ts reg a = reg := by
        by_cases h1 : a.id = ""
        · unfold applyObs
          simp [h1]
        · obtain ⟨e, he, hge⟩ := h a (List.mem_cons_self a t) h1
          exact applyObs_skip_of_ge ts reg a e he hge
      rw [List.foldl_cons, hstep, ih]
      intro o ho hid
      exact h o (List.mem_cons_of_mem a ho) hid

/-- A truthy observed team name makes the fallback argument irrelevant. -/
theorem mkEntry_of_truthy_team (ts : Int) (o : WsObs) (ex : Option Entry)
    (h : pyTruthy o.team_name = true) : mkEntry ts o ex = mkEntry ts o none := by
  simp only [pyTruthy, ne_eq, decide_not, Bool.not_eq_true', decide_eq_false_iff_not,
    Decidable.not_not] at h
  cases hob : o.team_name with
  | none => simp [hob] at h
  | some t =>
      rw [hob] at h
      simp only [Option.getD_some] at h
      simp [mkEntry, hob, h]

/-- A falsy observed team name falls back to the existing entry's team. -/
theorem mkEntry_team_fallback_some (ts : Int) (o : WsObs) (e : Entry)
    (h : pyTruthy o.team_name = false) :
    (mkEntry ts o (some e)).team_name = e.team_name := by
  simp only [pyTruthy, ne_eq, decide_not, Bool.not_eq_false', decide_eq_true_eq] at h
  cases hob : o.team_name with
  | none => simp [mkEntry, hob]
  | some t =>
      rw [hob] at h
      simp only [Option.getD_some] at h
      simp [mkEntry, hob, h]

/-- A falsy observed team name with no existing entry yields `"Unassigned"`. -/
theorem mkEntry_team_fallback_none (ts : Int) (o : WsObs)
    (h : pyTruthy o.team_name = false) :
    (mkEntry ts o none).team_name = "Unassigned" := by
  simp only [pyTruthy, ne_eq, decide_not, Bool.not_eq_false', decide_eq_true_eq] at h
  cases hob : o.team_name with
  | none => simp [mkEntry, hob]
  | some t =>
      rw [hob] at h
      simp only [Option.getD_some] at h
      simp [mkEntry, hob, h]

/-- A non-empty observed team name is taken verbatim. -/
theorem mkEntry_team_of_value (ts : Int) (o : WsObs) (ex : Option Entry)
    (t : String) (h : o.team_name = some t) (ht : t ≠ "") :
    (mkEntry ts o ex).team_name = t := by
  simp [mkEntry, h, ht]

/-! ## C6 — replay is order-sensitive and idempotent -/

/-- C6: replaying `[A, B]` with `A.timestamp < B.timestamp`, where `a1` is the
prefix of `A`'s workspace list before its first observation `oA` of workspace
`w` and likewise `b1, oB` for `B`, binds `w` to the entry built from `B`'s
observation (all of whose fields, including the team name when `oB` carries a
truthy one, come from `oB`); and replaying `[A, B, A]` yields exactly the same
registry as `[A, B]` — the repeated older snapshot never overwrites. -/
theorem c6_registry_replay (A B : Snapshot) (w : String) (oA oB : WsObs)
    (a1 a2 b1 b2 : List WsObs) (hw : w ≠ "")
    (hA : A.workspaces = a1 ++ oA :: a2) (ha1 : ∀ x ∈ a1, x.id ≠ w)
    (hoA : oA.id = w)
    (hB : B.workspaces = b1 ++ oB :: b2) (hb1 : ∀ x ∈ b1, x.id ≠ w)
    (hoB : oB.id = w)
    (hts : A.timestamp < B.timestamp)
    (hteam : pyTruthy oB.team_name = true) :
    alookup (buildWorkspaceRegistry [A, B]) w =
      some (mkEntry B.timestamp oB none) ∧
    buildWorkspaceRegistry [A, B, A] = buildWorkspaceRegistry [A, B] := by
  have h1 : alookup (applySnapshot [] A) w =
      some (mkEntry A.timestamp oA none) := by
    show alookup (A.workspaces.foldl (applyObs A.timestamp) []) w = _
    rw [hA]
    exact foldl_obs_first_of_none A.timestamp a1 oA a2 [] w hw ha1 hoA rfl
  have hlt : tsGe (mkEntry A.timestamp oA none).snapshot_timestamp
      B.timestamp = false := by
    simp only [mkEntry, tsGe, decide_eq_false_iff_not, not_le]
    exact hts
  have h2 : alookup (applySnapshot (applySnapshot [] A) B) w =
      some (mkEntry B.timestamp oB (some (mkEntry A.timestamp oA none))) := by
    show alookup (B.workspaces.foldl (applyObs B.timestamp) _) w = _
    rw [hB]
    exact foldl_obs_first_of_older B.timestamp b1 oB b2 _ w _ hw hb1 hoB h1 hlt
  constructor
  · show alookup (applySnapshot (applySnapshot [] A) B) w = _
    rw [h2, mkEntry_of_truthy_team B.timestamp oB _ hteam]
  · show applySnapshot (applySnapshot (applySnapshot [] A) B) A =
      applySnapshot (applySnapshot [] A) B
    show A.workspaces.foldl (applyObs A.timestamp)
      (applySnapshot (applySnapshot [] A) B) = _
    apply foldl_obs_skip_of_ge
    intro o ho hid
    have hp1 : (alookup (applySnapshot [] A) o.id).isSome :=
      foldl_obs_mem_isSome A.timestamp A.workspaces [] o ho hid
    have hp2 : (alookup (applySnapshot (applySnapshot [] A) B) o.id).isSome :=
      foldl_obs_isSome_preserve B.timestamp B.workspaces _ o.id hp1
    obtain ⟨e2, he2⟩ := Option.isSome_iff_exists.mp hp2
    refine ⟨e2, he2, ?_⟩
    rcases foldl_obs_ts_bound B.timestamp B.workspaces _ o.id e2 he2 with
      hcase | hcase
    · rcases foldl_obs_ts_bound A.timestamp A.workspaces [] o.id e2 hcase with
        hnil | hA2
      · simp [alookup] at hnil
      · simp [tsGe, hA2]
    · simp only [tsGe, hcase, decide_eq_true_eq]
      exact le_of_lt hts

/-- Observations for the C6/C7/C9 witnesses: the first snapshot's view of
workspace `w`. -/
def obsA : WsObs :=
  { id := "w"
    owner_name := "alice"
    team_name := some "team-a"
    template_name := "t1"
    template_display_name := "T1"
    template_id := "tid1"
    created_at := some 0
    last_used_at := some 10
    total_usage_hours := some 1
    active_hours := some 1
    owner_first_name := none
    owner_last_name := none }

/-- The second snapshot's view of workspace `w` (truthy team name). -/
def obsB : WsObs :=
  { id := "w"
    owner_name := "bob"
    team_name := some "team-b"
    template_name := "t2"
    template_display_name := "T2"
    template_id := "tid2"
    created_at := some 5
    last_used_at := some 50
    total_usage_hours := some 2
    active_hours := some 2
    owner_first_name := none
    owner_last_name := none }

/-- The second snapshot's view of workspace `w` with a missing team name. -/
def obsBNoTeam : WsObs := { obsB with team_name := none }

/-- Witness snapshot at timestamp 100 mentioning `w` via `obsA`. -/
def snapA : Snapshot := ⟨100, [obsA]⟩

/-- Witness snapshot at timestamp 200 mentioning `w` via `obsB`. -/
def snapB : Snapshot := ⟨200, [obsB]⟩

/-- Witness snapshot at timestamp 200 whose `w` observation lacks a team. -/
def snapBNoTeam : Snapshot := ⟨200, [obsBNoTeam]⟩

/-- Witness snapshot sharing `snapA`'s timestamp 100. -/
def snapBEqual : Snapshot := ⟨100, [obsB]⟩

/-- C6 witness: the replay theorem at the concrete snapshots
`snapA` (ts 100) and `snapB` (ts 200). -/
theorem c6_registry_replay_witness :
    alookup (buildWorkspaceRegistry [snapA, snapB]) "w" =
      some (mkEntry snapB.timestamp obsB none) ∧
    buildWorkspaceRegistry [snapA, snapB, snapA] =
      buildWorkspaceRegistry [snapA, snapB] :=
  c6_registry_replay snapA snapB "w" obsA obsB [] [] [] []
    (by decide) rfl (by simp) rfl rfl (by simp) rfl (by decide) (by decide)

/-! ## C7 — identical snapshot timestamps -/

/-- C7: replaying `[A, B]` where the two snapshots carry identical timestamps
and `A` (processed first) observes `w` first at `oA` (after a `w`-free prefix
`a1`) keeps exactly the entry produced by replaying `[A]` alone — the
`>=` comparison makes the earliest-processed snapshot win — and that entry is
the one built from `A`'s observation. -/
theorem c7_equal_timestamp_first_wins (A B : Snapshot) (w : String)
    (oA : WsObs) (a1 a2 : List WsObs) (hw : w ≠ "")
    (hA : A.workspaces = a1 ++ oA :: a2) (ha1 : ∀ x ∈ a1, x.id ≠ w)
    (hoA : oA.id = w) (hts : A.timestamp = B.timestamp) :
    alookup (buildWorkspaceRegistry [A, B]) w =
      alookup (buildWorkspaceRegistry [A]) w ∧
    alookup (buildWorkspaceRegistry [A, B]) w =
      some (mkEntry A.timestamp oA none) := by
  have h1 : alookup (applySnapshot [] A) w =
      some (mkEntry A.timestamp oA none) := by
    show alookup (A.workspaces.foldl (applyObs A.timestamp) []) w = _
    rw [hA]
    exact foldl_obs_first_of_none A.timestamp a1 oA a2 [] w hw ha1 hoA rfl
  have hge : tsGe (mkEntry A.timestamp oA none).snapshot_timestamp
      B.timestamp = true := by
    simp [mkEntry, tsGe, ← hts]
  have h2 : alookup (applySnapshot (applySnapshot [] A) B) w =
      some (mkEntry A.timestamp oA none) :=
    foldl_obs_preserve_of_ge B.timestamp B.workspaces _ w _ h1 hge
  constructor
  · show alookup (applySnapshot (applySnapshot [] A) B) w =
      alookup (applySnapshot [] A) w
    rw [h2, h1]
  · exact h2

/-- C7 witness: the equal-timestamp theorem at `snapA` and `snapBEqual`
(both at timestamp 100). -/
theorem c7_equal_timestamp_first_wins_witness :
    alookup (buildWorkspaceRegistry [snapA, snapBEqual]) "w" =
      alookup (buildWorkspaceRegistry [snapA]) "w" ∧
    alookup (buildWorkspaceRegistry [snapA, snapBEqual]) "w" =
      some (mkEntry snapA.timestamp obsA none) :=
  c7_equal_timestamp_first_wins snapA snapBEqual "w" obsA [] []
    (by decide) rfl (by simp) rfl rfl

/-! ## C9 — team-name retention on overwrite -/

/-- C9: when a strictly newer snapshot `B` overwrites `w`'s entry but its
observation `oB` has a missing or empty team name, the new entry keeps the
previously stored team name (here `tA`, from `A`'s observation) while its
other fields (owner, snapshot timestamp) come from `B`; and when no previous
entry exists either (replaying `[B]` alone), the team defaults to
`"Unassigned"`. -/
theorem c9_team_name_retention (A B : Snapshot) (w tA : String)
    (oA oB : WsObs) (a1 a2 b1 b2 : List WsObs) (hw : w ≠ "")
    (hA : A.workspaces = a1 ++ oA :: a2) (ha1 : ∀ x ∈ a1, x.id ≠ w)
    (hoA : oA.id = w) (htA : oA.team_name = some tA) (htAne : tA ≠ "")
    (hB : B.workspaces = b1 ++ oB :: b2) (hb1 : ∀ x ∈ b1, x.id ≠ w)
    (hoB : oB.id = w) (hBteam : pyTruthy oB.team_name = false)
    (hts : A.timestamp < B.timestamp) :
    (alookup (buildWorkspaceRegistry [A, B]) w =
        some (mkEntry B.timestamp oB (some (mkEntry A.timestamp oA none))) ∧
      (mkEntry B.timestamp oB (some (mkEntry A.timestamp oA none))).team_name = tA ∧
      (mkEntry B.timestamp oB
        (some (mkEntry A.timestamp oA none))).snapshot_timestamp =
          some B.timestamp ∧
      (mkEntry B.timestamp oB (some (mkEntry A.timestamp oA none))).owner_name =
        oB.owner_name) ∧
    (alookup (buildWorkspaceRegistry [B]) w = some (mkEntry B.timestamp oB none) ∧
      (mkEntry B.timestamp oB none).team_name = "Unassigned") := by
  have h1 : alookup (applySnapshot [] A) w =
      some (mkEntry A.timestamp oA none) := by
    show alookup (A.workspaces.foldl (applyObs A.timestamp) []) w = _
    rw [hA]
    exact foldl_obs_first_of_none A.timestamp a1 oA a2 [] w hw ha1 hoA rfl
  have hlt : tsGe (mkEntry A.timestamp oA none).snapshot_timestamp
      B.timestamp = false := by
    simp only [mkEntry, tsGe, decide_eq_false_iff_not, not_le]
    exact hts
  refine ⟨⟨?_, ?_, by simp [mkEntry], by simp [mkEntry]⟩, ?_, ?_⟩
  · show alookup (applySnapshot (applySnapshot [] A) B) w = _
    show alookup (B.workspaces.foldl (applyObs B.timestamp) _) w = _
    rw [hB]
    exact foldl_obs_first_of_older B.timestamp b1 oB b2 _ w _ hw hb1 hoB h1 hlt
  · rw [mkEntry_team_fallback_some B.timestamp oB _ hBteam]
    exact mkEntry_team_of_value A.timestamp oA none tA htA htAne
  · show alookup (applySnapshot [] B) w = _
    show alookup (B.workspaces.foldl (applyObs B.timestamp) []) w = _
    rw [hB]
    exact foldl_obs_first_of_none B.timestamp b1 oB b2 [] w hw hb1 hoB rfl
  · exact mkEntry_team_fallback_none B.timestamp oB hBteam

/-- C9 witness: team retention at the concrete snapshots `snapA` (team-a) and
`snapBNoTeam` (no team, newer timestamp). -/
theorem c9_team_name_retention_witness :
    (alookup (buildWorkspaceRegistry [snapA, snapBNoTeam]) "w" =
        some (mkEntry snapBNoTeam.timestamp obsBNoTeam
          (some (mkEntry snapA.timestamp obsA none))) ∧
      (mkEntry snapBNoTeam.timestamp obsBNoTeam
        (some (mkEntry snapA.timestamp obsA none))).team_name = "team-a" ∧
      (mkEntry snapBNoTeam.timestamp obsBNoTeam
        (some (mkEntry snapA.timestamp obsA none))).snapshot_timestamp =
          some snapBNoTeam.timestamp ∧
      (mkEntry snapBNoTeam.timestamp obsBNoTeam
        (some (mkEntry snapA.timestamp obsA none))).owner_name =
          obsBNoTeam.owner_name) ∧
    (alookup (buildWorkspaceRegistry [snapBNoTeam]) "w" =
        some (mkEntry snapBNoTeam.timestamp obsBNoTeam none) ∧
      (mkEntry snapBNoTeam.timestamp obsBNoTeam none).team_name =
        "Unassigned") :=
  c9_team_name_retention snapA snapBNoTeam "w" "team-a" obsA obsBNoTeam
    [] [] [] [] (by decide) rfl (by simp) rfl rfl (by decide) rfl (by simp)
    rfl (by decide) (by decide)

/-- A sample registry entry for the C10 witness. -/
def sampleEntry : Entry :=
  { id := "w1"
    owner_name := "alice"
    team_name := "team-a"
    template_name := "t"
    template_display_name := "T"
    template_id := "tid"
    created_at := some 0
    last_used_at := some 100
    total_usage_hours := 1
    active_hours := 1
    owner_first_name := none
    owner_last_name := none
    snapshot_timestamp := some 0 }

/-- A sample accumulated record for the C10 witness (mentions both the
present id `w1` and an absent id `w2`). -/
def sampleRecord : UsageRecord :=
  { owner_name := "alice"
    template_name := "t"
    team_name := "team-a"
    total_active_hours := 5
    total_workspace_hours := 5
    workspace_ids := ["w1", "w2"]
    last_updated := 50
    first_seen := 10 }

/-- C10 witness: at a concrete registry and accumulated usage, the enriched
registry still binds `w1` to its original entry. -/
theorem c10_enrich_preserves_existing_entries_witness :
    alookup
      (enrichRegistryFromAccumulated [("w1", sampleEntry)]
        [("alice_t", sampleRecord)]) "w1" = some sampleEntry :=
  c10_enrich_preserves_existing_entries [("w1", sampleEntry)]
    [("alice_t", sampleRecord)] "w1" sampleEntry (by decide)


/-! ## C5 — monotonic accumulation and deletion preservation -/

/-- The clamped active-hours delta is never negative. -/
theorem groupActiveDelta_nonneg (hs : List (String × WsSnapRec))
    (g : GroupData) : 0 ≤ groupActiveDelta hs g :=
  le_max_left 0 _

/-- The clamped workspace-hours delta is never negative. -/
theorem groupWorkspaceHoursDelta_nonneg (hs : List (String × WsSnapRec))
    (g : GroupData) : 0 ≤ groupWorkspaceHoursDelta hs g := by
  apply List.sum_nonneg
  intro x hx
  obtain ⟨i, _, rfl⟩ := List.mem_map.mp hx
  exact le_max_left 0 _

/-- One group step keeps every existing key, never decreases its totals, and
only grows its workspace-id set. -/
theorem applyGroup_mono (hs : List (String × WsSnapRec))
    (maps : List (String × Option String)) (now : Int)
    (acc : List (String × UsageRecord)) (kg : String × GroupData)
    (key : String) (rec : UsageRecord) (h : alookup acc key = some rec) :
    ∃ rec', alookup (applyGroup hs maps now acc kg) key = some rec' ∧
      rec.total_active_hours ≤ rec'.total_active_hours ∧
      rec.total_workspace_hours ≤ rec'.total_workspace_hours ∧
      (∀ x ∈ rec.workspace_ids, x ∈ rec'.workspace_ids) := by
  obtain ⟨k0, g⟩ := kg
  by_cases hk : k0 = key
  · subst hk
    have happ : applyGroup hs maps now acc (k0, g) =
        upsert k0 (updateExistingAccumulatedRecord rec (groupActiveDelta hs g)
          (groupWorkspaceHoursDelta hs g)
          (getTeamName g.owner_name k0 maps acc) g.workspace_ids now) acc := by
      simp only [applyGroup, h]
    rw [happ, alookup_upsert_self]
    refine ⟨_, rfl, ?_, ?_, ?_⟩
    · exact le_add_of_nonneg_right (groupActiveDelta_nonneg hs g)
    · exact le_add_of_nonneg_right (groupWorkspaceHoursDelta_nonneg hs g)
    · intro x hx
      simp only [updateExistingAccumulatedRecord, pyUnion]
      exact List.mem_dedup.mpr (List.mem_append_left _ hx)
  · have hkeep : alookup (applyGroup hs maps now acc (k0, g)) key = some rec := by
      unfold applyGroup
      cases hl : alookup acc k0 <;>
        · simp only [hl]
          rw [alookup_upsert_ne k0 key hk]
          exact h
    exact ⟨rec, hkeep, le_refl _, le_refl _, fun x hx => hx⟩

/-- Folding all groups of one run keeps every existing key with
non-decreasing totals and a growing workspace-id set. -/
theorem foldGroups_mono (hs : List (String × WsSnapRec))
    (maps : List (String × Option String)) (now : Int)
    (groups : List (String × GroupData)) (acc : List (String × UsageRecord))
    (key : String) (rec : UsageRecord) (h : alookup acc key = some rec) :
    ∃ rec', alookup (groups.foldl (applyGroup hs maps now) acc) key = some rec' ∧
      rec.total_active_hours ≤ rec'.total_active_hours ∧
      rec.total_workspace_hours ≤ rec'.total_workspace_hours ∧
      (∀ x ∈ rec.workspace_ids, x ∈ rec'.workspace_ids) := by
  induction groups generalizing acc rec with
  | nil => exact ⟨rec, h, le_refl _, le_refl _, fun x hx => hx⟩
  | cons g gs ih =>
      rw [List.foldl_cons]
      obtain ⟨r1, h1, ha1, hw1, hs1⟩ := applyGroup_mono hs maps now acc g key rec h
      obtain ⟨r2, h2, ha2, hw2, hs2⟩ := ih _ _ h1
      exact ⟨r2, h2, le_trans ha1 ha2, le_trans hw1 hw2,
        fun x hx => hs2 x (hs1 x hx)⟩

/-- One full `calculate_accumulated_usage` call keeps every historical key
with non-decreasing totals and a growing workspace-id set. -/
theorem calcAccUsage_mono (cur : List CWorkspace)
    (hist : List (String × UsageRecord)) (hsnaps : List (String × WsSnapRec))
    (maps : List (String × Option String)) (now : Int) (key : String)
    (rec : UsageRecord) (h : alookup hist key = some rec) :
    ∃ rec', alookup (calculateAccumulatedUsage cur hist hsnaps maps now).1 key =
        some rec' ∧
      rec.total_active_hours ≤ rec'.total_active_hours ∧
      rec.total_workspace_hours ≤ rec'.total_workspace_hours ∧
      (∀ x ∈ rec.workspace_ids, x ∈ rec'.workspace_ids) :=
  foldGroups_mono hsnaps maps now _ hist key rec h

/-- C5: across any sequence of accumulator calls (so in particular across one
call), every key present in the initial historical accumulated usage is still
present at the end, its `total_active_hours` and `total_workspace_hours` are
at least their historical values whatever raw counters the runs supply
(including decreasing ones), and its `workspace_ids` set only grows — hours
attributed to a workspace that later disappears from the raw workspace list
are never dropped. -/
theorem c5_accumulated_usage_monotone (runs : List RunInput)
    (acc0 : List (String × UsageRecord)) (snaps0 : List (String × WsSnapRec))
    (key : String) (rec : UsageRecord) (h : alookup acc0 key = some rec) :
    ∃ rec', alookup (runAccumulatorSequence runs (acc0, snaps0)).1 key =
        some rec' ∧
      rec.total_active_hours ≤ rec'.total_active_hours ∧
      rec.total_workspace_hours ≤ rec'.total_workspace_hours ∧
      (∀ x ∈ rec.workspace_ids, x ∈ rec'.workspace_ids) := by
  suffices hgen : ∀ (st : List (String × UsageRecord) × List (String × WsSnapRec))
      (rec : UsageRecord), alookup st.1 key = some rec →
      ∃ rec', alookup (runAccumulatorSequence runs st).1 key = some rec' ∧
        rec.total_active_hours ≤ rec'.total_active_hours ∧
        rec.total_workspace_hours ≤ rec'.total_workspace_hours ∧
        (∀ x ∈ rec.workspace_ids, x ∈ rec'.workspace_ids) by
    exact hgen (acc0, snaps0) rec h
  induction runs with
  | nil => exact fun st rec h => ⟨rec, h, le_refl _, le_refl _, fun x hx => hx⟩
  | cons r rs ih =>
      intro st rec h
      obtain ⟨r1, h1, ha1, hw1, hs1⟩ :=
        calcAccUsage_mono r.workspaces st.1 st.2 r.mappings r.now key rec h
      obtain ⟨r2, h2, ha2, hw2, hs2⟩ :=
        ih (calculateAccumulatedUsage r.workspaces st.1 st.2 r.mappings r.now)
          r1 h1
      exact ⟨r2, h2, le_trans ha1 ha2, le_trans hw1 hw2,
        fun x hx => hs2 x (hs1 x hx)⟩

/-- C5 witness: one concrete run (which deletes every workspace: its raw
workspace list is empty) keeps the key `alice_t` with totals at least the
historical 5 and still containing workspace ids `w1`, `w2`. -/
theorem c5_accumulated_usage_monotone_witness :
    ∃ rec', alookup (runAccumulatorSequence [⟨[], [], 0⟩]
        ([("alice_t", sampleRecord)], [])).1 "alice_t" = some rec' ∧
      sampleRecord.total_active_hours ≤ rec'.total_active_hours ∧
      sampleRecord.total_workspace_hours ≤ rec'.total_workspace_hours ∧
      (∀ x ∈ sampleRecord.workspace_ids, x ∈ rec'.workspace_ids) :=
  c5_accumulated_usage_monotone [⟨[], [], 0⟩] [("alice_t", sampleRecord)] []
    "alice_t" sampleRecord (by decide)

/-! ## C8 — team-name resolution precedence -/

/-- The claim's precedence, written from its words: the non-empty team name
from the current participant-directory mapping for the owner; otherwise the
team name already stored under that key in the historical accumulated usage;
otherwise the literal `"Unassigned"`. -/
def teamNameResolutionSpec (owner key : String)
    (participantMappings : List (String × Option String))
    (accumulatedUsage : List (String × UsageRecord)) : String :=
  let current := (alookup participantMappings owner).getD none
  if pyTruthy current then current.getD ""
  else
    match alookup accumulatedUsage key with
    | some r => r.team_name
    | none => "Unassigned"

/-- C8: `_get_team_name` realises exactly the claimed precedence — current
non-empty mapping, then the stored historical team name, then
`"Unassigned"` — whenever the stored team names are themselves non-empty
(which every record written by the accumulator satisfies, since
`_get_team_name` never returns `""`). -/
theorem c8_team_name_precedence (owner key : String)
    (maps : List (String × Option String)) (acc : List (String × UsageRecord))
    (hstored : ∀ r, alookup acc key = some r → r.team_name ≠ "") :
    getTeamName owner key maps acc = teamNameResolutionSpec owner key maps acc := by
  unfold getTeamName teamNameResolutionSpec
  cases ho : (alookup maps owner).getD none with
  | none =>
      cases ha : alookup acc key with
      | none => simp [ha, pyTruthy]
      | some r => simp [ha, pyTruthy, hstored r ha]
  | some t =>
      by_cases ht : t = ""
      · subst ht
        cases ha : alookup acc key with
        | none => simp [ha, pyTruthy]
        | some r => simp [ha, pyTruthy, hstored r ha]
      · simp [pyTruthy, ht]

/-- C8 witness: with no current mapping for `alice` and a stored record under
`alice_t` carrying team `team-a`, the code's resolution agrees with the
claimed precedence (both return the stored `team-a`). -/
theorem c8_team_name_precedence_witness :
    getTeamName "alice" "alice_t" [] [("alice_t", sampleRecord)] =
      teamNameResolutionSpec "alice" "alice_t" [] [("alice_t", sampleRecord)] := by
  apply c8_team_name_precedence
  intro r hr
  have h0 : alookup [("alice_t", sampleRecord)] "alice_t" = some sampleRecord := rfl
  rw [h0] at hr
  cases Option.some.inj hr
  decide

end Analytics
